import Mathlib

/-!
Shallow embedding of the statistics engine of `src/main.py` (NBA games
dashboard).  Each query endpoint of the FastAPI app is modelled as a pure
Lean function over an in-memory `Dataset` (a `List GameRecord`), exactly
following the pandas computations of the source.  Numeric aggregates are
modelled over `ℚ`; a pandas/numpy value that is NaN (the mean of an empty
series, or an unguarded `x / 0`) is modelled as `none : Option ℚ`, with
NaN-propagating arithmetic where the source combines such values.
-/

namespace NBAStats

/-- One row of the loaded dataframe (`load_data` in `src/main.py`): one played
game.  `date` is the parsed `datetime` column (`errors="coerce"`, so it may be
null, modelled as `none`); `season` is the `seasonStartYear` column;
`isRegular` is the regular-season/playoffs flag. -/
structure GameRecord where
  gameId : Nat
  date : Option String
  season : Int
  homeTeam : String
  awayTeam : String
  pointsHome : Nat
  pointsAway : Nat
  isRegular : Bool
deriving DecidableEq, Repr

/-- The derived column `df["totalPoints"] = df["pointsHome"] + df["pointsAway"]`
added by `load_data`. -/
def totalPoints (r : GameRecord) : Nat := r.pointsHome + r.pointsAway

/-- Modelled from the spec: the `Winner` column read by `get_team_rankings` is
produced by the external data loader, which is outside the core (`src/main.py`
only consumes it).  Per the spec data model it equals `homeTeam` when
`pointsHome > pointsAway`, `awayTeam` when `pointsAway > pointsHome`, and a
tie is treated as no winner (excluded from win tallies). -/
def winner (r : GameRecord) : Option String :=
  if r.pointsAway < r.pointsHome then some r.homeTeam
  else if r.pointsHome < r.pointsAway then some r.awayTeam
  else none

/-- The non-null entries of the `Winner` column of a dataset
(`data["Winner"]`, as consumed by `value_counts`, which ignores NaN). -/
def winners (d : List GameRecord) : List String := d.filterMap winner

/-- Model of `pandas.Series.mean`: the arithmetic mean of a list of values, NaN
(modelled as `none`) on an empty list. -/
def meanOpt (l : List ℚ) : Option ℚ :=
  if l.length = 0 then none else some (l.sum / l.length)

/-- NaN-propagating addition: in the source these values are floats where NaN
propagates through `+`. -/
def nanAdd : Option ℚ → Option ℚ → Option ℚ
  | some a, some b => some (a + b)
  | _, _ => none

/-- NaN-propagating multiplication by a (nonnegative integer) count; note that
in float arithmetic `nan * 0` is still `nan`, which `Option.map` reproduces. -/
def nanMulNat (a : Option ℚ) (n : Nat) : Option ℚ := a.map (· * (n : ℚ))

/-- NaN-propagating division by a positive integer (the source only divides by
`max(total_games, 1) ≥ 1` here). -/
def nanDivNat (a : Option ℚ) (n : Nat) : Option ℚ := a.map (· / (n : ℚ))

/-! ### Overview (`get_overview`, src/main.py lines 34-52) -/

/-- Result record of `get_overview`.  `total_games = len(df)` is always
defined; the three float aggregates are `Option ℚ`: on an empty dataframe
`df["pointsHome"].mean()` is NaN and `home_wins / total_games` is an
unguarded `0 / 0` (numpy yields NaN with a runtime warning), so all three are
`none` there — the source has no explicit empty-dataset guard. -/
structure OverviewStats where
  total_games : Nat
  avg_home_points : Option ℚ
  avg_away_points : Option ℚ
  home_win_rate : Option ℚ
deriving DecidableEq, Repr

/-- Endpoint `get_overview`: `total_games = len(df)`;
`avg_home_points = df["pointsHome"].mean()`;
`avg_away_points = df["pointsAway"].mean()`;
`home_win_rate = (df["pointsHome"] > df["pointsAway"]).sum() / total_games * 100`. -/
def get_overview (d : List GameRecord) : OverviewStats :=
  { total_games := d.length
    avg_home_points := meanOpt (d.map (fun r => (r.pointsHome : ℚ)))
    avg_away_points := meanOpt (d.map (fun r => (r.pointsAway : ℚ)))
    home_win_rate :=
      if d.length = 0 then none
      else some ((d.countP (fun r => r.pointsAway < r.pointsHome) : ℚ) / (d.length : ℚ) * 100) }

/-! ### Season trend (`get_season_trend`, src/main.py lines 55-72) -/

/-- The distinct seasons of the dataset in ascending order: `groupby` sorts its
keys ascending, and `sorted(df["seasonStartYear"].unique())` in
`get_team_detail` is the same list. -/
def seasonsSorted (d : List GameRecord) : List Int :=
  List.insertionSort (· ≤ ·) (d.map (·.season)).dedup

/-- One output row of `get_season_trend`
(columns `season, avg_home, avg_away, avg_total, games`). -/
structure SeasonRow where
  season : Int
  avg_home : ℚ
  avg_away : ℚ
  avg_total : ℚ
  games : Nat
deriving DecidableEq, Repr

/-- Endpoint `get_season_trend`: `df.groupby("seasonStartYear")` with per-group means of
`pointsHome`, `pointsAway`, `totalPoints` and a `game_id` count.  Each group is
non-empty, so the group means are plain rationals. -/
def get_season_trend (d : List GameRecord) : List SeasonRow :=
  (seasonsSorted d).map (fun s =>
    let g := d.filter (fun r => r.season == s)
    { season := s
      avg_home := (g.map (fun r => (r.pointsHome : ℚ))).sum / (g.length : ℚ)
      avg_away := (g.map (fun r => (r.pointsAway : ℚ))).sum / (g.length : ℚ)
      avg_total := (g.map (fun r => (totalPoints r : ℚ))).sum / (g.length : ℚ)
      games := g.length })

/-! ### Team rankings (`get_team_rankings`, src/main.py lines 75-105) -/

/-- Ordering used to model `value_counts()`: pairs `(team, count)` sorted by
count descending.  `value_counts` sorts by count descending with an
implementation-defined tie order; the model fixes a deterministic tie-break
(stable sort over the deduplicated first-column order). -/
def rankLE (p q : String × Nat) : Prop := q.2 ≤ p.2

instance : DecidableRel rankLE := fun p q => Nat.decLe q.2 p.2

instance : IsTotal (String × Nat) rankLE := ⟨fun p q => Nat.le_total q.2 p.2⟩

instance : IsTrans (String × Nat) rankLE := ⟨fun _ _ _ h h2 => Nat.le_trans h2 h⟩

/-- Model of `data["Winner"].value_counts()`: each distinct non-null winner with its
number of occurrences, ordered by count descending. -/
def win_counts (d : List GameRecord) : List (String × Nat) :=
  List.insertionSort rankLE ((winners d).dedup.map (fun t => (t, (winners d).count t)))

/-- The `if season:` restriction at the top of `get_team_rankings`: the filter
is applied only when the optional parameter is truthy, so both `None` and `0`
leave the dataframe unfiltered. -/
def restrict (d : List GameRecord) : Option Int → List GameRecord
  | none => d
  | some s => if s = 0 then d else d.filter (fun r => r.season == s)

/-- One output row of `get_team_rankings` (`{team, wins, games, win_rate}`). -/
structure RankingRow where
  team : String
  wins : Nat
  games : Nat
  win_rate : ℚ
deriving DecidableEq, Repr

/-- Endpoint `get_team_rankings`: restrict by the optional season filter, take
`value_counts().head(15)` of the `Winner` column, then for each selected team
count its appearances (`homeTeam == team` plus `awayTeam == team`) and compute
`win_rate = wins / total * 100` guarded by `if total > 0`. -/
def get_team_rankings (d : List GameRecord) (season : Option Int) : List RankingRow :=
  let data := restrict d season
  ((win_counts data).take 15).map (fun p =>
    let total := data.countP (fun r => r.homeTeam == p.1) + data.countP (fun r => r.awayTeam == p.1)
    { team := p.1
      wins := p.2
      games := total
      win_rate := if 0 < total then (p.2 : ℚ) / (total : ℚ) * 100 else 0 })

/-! ### High-scoring games (`get_high_scoring_games`, src/main.py lines 108-131) -/

/-- Ordering used to model `nlargest(10, "totalPoints")`: records by
`totalPoints` descending (`nlargest` keeps first occurrences on ties; the
stable sort reproduces a deterministic tie order). -/
def ptsGE (r s : GameRecord) : Prop := totalPoints s ≤ totalPoints r

instance : DecidableRel ptsGE := fun r s => Nat.decLe (totalPoints s) (totalPoints r)

instance : IsTotal GameRecord ptsGE := ⟨fun r s => Nat.le_total (totalPoints s) (totalPoints r)⟩

instance : IsTrans GameRecord ptsGE := ⟨fun _ _ _ h h2 => Nat.le_trans h2 h⟩

/-- The dataset sorted by `totalPoints` descending. -/
def sortedByPoints (d : List GameRecord) : List GameRecord :=
  List.insertionSort ptsGE d

/-- Endpoint `get_high_scoring_games`: `df.nlargest(10, "totalPoints")` — the first 10
records of the dataset in descending `totalPoints` order (fewer when the
dataset is smaller).  The endpoint then only reformats each selected record
into display fields, so the model returns the selected records themselves. -/
def get_high_scoring (d : List GameRecord) : List GameRecord :=
  (sortedByPoints d).take 10

/-! ### Team detail (`get_team_detail`, src/main.py lines 134-178) -/

/-- Games of `team` in season `s`: `len(season_home) + len(season_away)` where
`season_home`/`season_away` restrict the team's home/away games to season `s`. -/
def teamSeasonGames (d : List GameRecord) (team : String) (s : Int) : Nat :=
  ((d.filter (fun r => r.homeTeam == team)).filter (fun r => r.season == s)).length +
  ((d.filter (fun r => r.awayTeam == team)).filter (fun r => r.season == s)).length

/-- Wins of `team` in season `s`: home games with `pointsHome > pointsAway`
plus away games with `pointsAway > pointsHome`. -/
def teamSeasonWins (d : List GameRecord) (team : String) (s : Int) : Nat :=
  ((d.filter (fun r => r.homeTeam == team)).filter (fun r => r.season == s)).countP
    (fun r => r.pointsAway < r.pointsHome) +
  ((d.filter (fun r => r.awayTeam == team)).filter (fun r => r.season == s)).countP
    (fun r => r.pointsHome < r.pointsAway)

/-- One row of the per-season breakdown of `get_team_detail`. -/
structure SeasonPerf where
  season : Int
  wins : Nat
  games : Nat
  win_rate : ℚ
deriving DecidableEq, Repr

/-- The `seasons_data` list of `get_team_detail` before the final `[-10:]`
truncation: iterate over `sorted(df["seasonStartYear"].unique())` and append a
row only when `games > 0`. -/
def teamSeasonsAll (d : List GameRecord) (team : String) : List SeasonPerf :=
  (seasonsSorted d).filterMap (fun s =>
    let wins := teamSeasonWins d team s
    let games := teamSeasonGames d team s
    if 0 < games then
      some { season := s, wins := wins, games := games
             win_rate := (wins : ℚ) / (games : ℚ) * 100 }
    else none)

/-- Python `l[-10:]` generalised: the last `n` elements of a list. -/
def lastN (n : Nat) (l : List α) : List α := l.drop (l.length - n)

/-- Result record of `get_team_detail`.  `avg_points` is `Option ℚ` because the
source computes `(mean_home * n_home + mean_away * n_away) / max(total, 1)` in
float arithmetic, where the mean of an empty side is NaN and NaN propagates
even through `* 0`. -/
structure TeamDetail where
  total_wins : Nat
  total_games : Nat
  win_rate : ℚ
  avg_points : Option ℚ
  seasons : List SeasonPerf
deriving DecidableEq, Repr

/-- Endpoint `get_team_detail`: aggregate wins/games over the team's home and away
games, win rate with the `max(total_games, 1)` denominator, weighted average
points, and the per-season breakdown truncated to its last 10 rows. -/
def get_team_detail (d : List GameRecord) (team : String) : TeamDetail :=
  let team_home := d.filter (fun r => r.homeTeam == team)
  let team_away := d.filter (fun r => r.awayTeam == team)
  let home_wins := team_home.countP (fun r => r.pointsAway < r.pointsHome)
  let away_wins := team_away.countP (fun r => r.pointsHome < r.pointsAway)
  let total_games := team_home.length + team_away.length
  { total_wins := home_wins + away_wins
    total_games := total_games
    win_rate := ((home_wins + away_wins : Nat) : ℚ) / ((max total_games 1 : Nat) : ℚ) * 100
    avg_points :=
      nanDivNat
        (nanAdd
          (nanMulNat (meanOpt (team_home.map (fun r => (r.pointsHome : ℚ)))) team_home.length)
          (nanMulNat (meanOpt (team_away.map (fun r => (r.pointsAway : ℚ)))) team_away.length))
        (max total_games 1)
    seasons := lastN 10 (teamSeasonsAll d team) }

/-! ### Playoffs vs regular (`get_playoffs_vs_regular`, src/main.py lines 181-207) -/

/-- Per-partition statistics.  The mean fields are NaN (`none`) on an empty
partition; `home_win_rate` of the regular partition divides by `len(regular)`
unguarded (so `none` when empty), while the playoffs partition divides by
`max(len(playoffs), 1)` and is always defined. -/
structure PartitionStats where
  games : Nat
  avg_total : Option ℚ
  avg_home : Option ℚ
  avg_away : Option ℚ
  home_win_rate : Option ℚ
deriving DecidableEq, Repr

/-- Endpoint `get_playoffs_vs_regular`: split the dataset on `isRegular` and compute
count, means, and home win rate for each side. -/
def get_playoffs_vs_regular (d : List GameRecord) : PartitionStats × PartitionStats :=
  let regular := d.filter (fun r => r.isRegular)
  let playoffs := d.filter (fun r => !r.isRegular)
  ({ games := regular.length
     avg_total := meanOpt (regular.map (fun r => (totalPoints r : ℚ)))
     avg_home := meanOpt (regular.map (fun r => (r.pointsHome : ℚ)))
     avg_away := meanOpt (regular.map (fun r => (r.pointsAway : ℚ)))
     home_win_rate :=
       if regular.length = 0 then none
       else some ((regular.countP (fun r => r.pointsAway < r.pointsHome) : ℚ)
         / (regular.length : ℚ) * 100) },
   { games := playoffs.length
     avg_total := meanOpt (playoffs.map (fun r => (totalPoints r : ℚ)))
     avg_home := meanOpt (playoffs.map (fun r => (r.pointsHome : ℚ)))
     avg_away := meanOpt (playoffs.map (fun r => (r.pointsAway : ℚ)))
     home_win_rate :=
       some ((playoffs.countP (fun r => r.pointsAway < r.pointsHome) : ℚ)
         / ((max playoffs.length 1 : Nat) : ℚ) * 100) })

/-! ### Sample dataset (the concrete scenario of spec section 8) -/

/-- Sample game 1: season 2020, A 100 - 90 B, regular season. -/
def g1 : GameRecord :=
  { gameId := 1, date := some "2020-12-22", season := 2020, homeTeam := "A", awayTeam := "B"
    pointsHome := 100, pointsAway := 90, isRegular := true }

/-- Sample game 2: season 2020, B 95 - 99 A, regular season (away win). -/
def g2 : GameRecord :=
  { gameId := 2, date := some "2020-12-25", season := 2020, homeTeam := "B", awayTeam := "A"
    pointsHome := 95, pointsAway := 99, isRegular := true }

/-- Sample game 3: season 2021, A 110 - 108 B, playoffs. -/
def g3 : GameRecord :=
  { gameId := 3, date := some "2022-05-01", season := 2021, homeTeam := "A", awayTeam := "B"
    pointsHome := 110, pointsAway := 108, isRegular := false }

/-- The three-game sample dataset of spec section 8. -/
def sampleD : List GameRecord := [g1, g2, g3]


/-! ### Helper lemmas -/

lemma length_filter_add_not {α : Type} (p : α → Bool) (l : List α) :
    (l.filter p).length + (l.filter (fun a => !p a)).length = l.length := by
  induction l with
  | nil => rfl
  | cons a l ih => cases hp : p a <;> simp [List.filter_cons, hp] <;> omega

lemma sorted_take_drop {α : Type} {R : α → α → Prop} {l : List α} (h : l.Pairwise R) (n : Nat) :
    ∀ a ∈ l.take n, ∀ b ∈ l.drop n, R a b := by
  have h2 : (l.take n ++ l.drop n).Pairwise R := by
    rw [List.take_append_drop]; exact h
  exact (List.pairwise_append.mp h2).2.2

lemma winner_mem_teams {r : GameRecord} {w : String} (hw : winner r = some w) :
    r.homeTeam = w ∨ r.awayTeam = w := by
  unfold winner at hw
  split at hw
  · exact Or.inl (Option.some.inj hw)
  · split at hw
    · exact Or.inr (Option.some.inj hw)
    · cases hw

lemma count_winners_le (d : List GameRecord) (t : String) :
    (winners d).count t ≤
      d.countP (fun r => r.homeTeam == t) + d.countP (fun r => r.awayTeam == t) := by
  induction d with
  | nil => simp [winners]
  | cons r rest ih =>
    simp only [winners, List.filterMap_cons, List.countP_cons] at *
    rcases hw : winner r with _ | w
    · simp only [hw]
      omega
    · simp only [hw, List.count_cons]
      by_cases hwt : w = t
      · subst hwt
        rcases winner_mem_teams hw with h1 | h1 <;> simp [h1] <;> omega
      · have : (w == t) = false := by simp [hwt]
        simp [this]
        omega

/-! ### Claim theorems -/

/-- Claim C2 (code bug evidence): on the empty Dataset, `get_overview` has no
explicit guard or error — the pandas means are NaN and the home-win-rate
division is an incidental unguarded `0 / 0` — so in the model every aggregate
of the result is undefined (`none`), not an `EmptyDatasetError` and not a
defined NaN/zero policy value. -/
theorem overview_empty_unguarded :
    get_overview ([] : List GameRecord)
      = { total_games := 0, avg_home_points := none, avg_away_points := none,
          home_win_rate := none } := rfl

/-- Claim C4 (amended): for every NONZERO season filter value matched by no
record — in particular every nonzero value outside the observed range of
seasons — `get_team_rankings` returns the empty ranking list and does not
fail.  (A filter value of `0` is excluded: `if season:` treats it as absent,
see the C10 theorem.) -/
theorem rankings_no_match_empty (d : List GameRecord) (s : Int) (hs : s ≠ 0)
    (h : ∀ r ∈ d, r.season ≠ s) : get_team_rankings d (some s) = [] := by
  have hd : restrict d (some s) = [] := by
    simp only [restrict, if_neg hs]
    rw [List.filter_eq_nil_iff]
    intro r hr
    simp [h r hr]
  simp [get_team_rankings, hd, win_counts, winners]

/-- Witness for the C4 theorem: the sample dataset observes only seasons 2020
and 2021, and the out-of-range filter 1999 yields an empty ranking list. -/
theorem rankings_no_match_empty_w :
    get_team_rankings sampleD (some 1999) = [] :=
  rankings_no_match_empty sampleD 1999 (by decide) (by decide)

/-- Claim C4 (counterexample): the filter value `0` is outside the observed
season range of the sample dataset, yet `get_team_rankings` with filter `0`
returns a non-empty list (the `if season:` truthiness test drops the filter),
refuting the claim for the filter value `0`. -/
theorem rankings_zero_filter_cex :
    (get_team_rankings sampleD (some 0)).length = 1 ∧
    (sampleD.map (·.season)).contains 0 = false := by
  constructor
  · rfl
  · rfl

/-- Claim C6: `get_high_scoring` returns exactly `min 10 n` rows (so at most
10, never padded, all rows when the dataset has fewer than 10 records); it is
the 10-record prefix of a descending `totalPoints` sort of the whole dataset,
each row's `totalPoints` is `≥` that of every later row, and every record not
selected has `totalPoints ≤` that of every selected row. -/
theorem high_scoring_spec (d : List GameRecord) :
    (get_high_scoring d).length = min 10 d.length ∧
    (sortedByPoints d).Perm d ∧
    get_high_scoring d = (sortedByPoints d).take 10 ∧
    List.Sorted ptsGE (get_high_scoring d) ∧
    ∀ a ∈ get_high_scoring d, ∀ b ∈ (sortedByPoints d).drop 10,
      totalPoints b ≤ totalPoints a := by
  have hperm := List.perm_insertionSort ptsGE d
  have hsorted := List.sorted_insertionSort ptsGE d
  refine ⟨?_, hperm, rfl, ?_, ?_⟩
  · rw [get_high_scoring, List.length_take]
    simp only [sortedByPoints, hperm.length_eq]
  · exact List.Pairwise.sublist (List.take_sublist _ _) hsorted
  · intro a ha b hb
    exact sorted_take_drop hsorted 10 a ha b hb

/-- Witness for the C6 theorem at the three-game sample dataset. -/
theorem high_scoring_spec_w :
    (get_high_scoring sampleD).length = min 10 sampleD.length :=
  (high_scoring_spec sampleD).1

/-- Claim C9: the `isRegular` flag partitions the Dataset exactly — the games
count of the regular partition plus that of the playoffs partition equals
`total_games` of `get_overview`. -/
theorem playoffs_regular_partition (d : List GameRecord) :
    (get_playoffs_vs_regular d).1.games + (get_playoffs_vs_regular d).2.games
      = (get_overview d).total_games := by
  simp only [get_playoffs_vs_regular, get_overview]
  exact length_filter_add_not (fun r => r.isRegular) d

/-- Claim C10: a season filter value of `0` is falsy in Python, so
`get_team_rankings` with filter `0` computes exactly the unfiltered rankings. -/
theorem rankings_zero_eq_unfiltered (d : List GameRecord) :
    get_team_rankings d (some 0) = get_team_rankings d none := by
  simp [get_team_rankings, restrict]


lemma season_trend_map_season (d : List GameRecord) :
    (get_season_trend d).map (·.season) = seasonsSorted d := by
  unfold get_season_trend
  generalize seasonsSorted d = l
  induction l with
  | nil => rfl
  | cons a t ih => simp only [List.map_cons]; rw [ih]

/-- Claim C1: for a non-empty Dataset, `get_overview` reports the record count
as `total_games`, the arithmetic means of `pointsHome` and `pointsAway` as the
two averages, and `(count of home wins) / total_games * 100` as
`home_win_rate`, and that rate lies in `[0, 100]`. -/
theorem overview_correct (d : List GameRecord) (h : d ≠ []) :
    (get_overview d).total_games = d.length ∧
    (get_overview d).avg_home_points
      = some ((d.map (fun r => (r.pointsHome : ℚ))).sum / (d.length : ℚ)) ∧
    (get_overview d).avg_away_points
      = some ((d.map (fun r => (r.pointsAway : ℚ))).sum / (d.length : ℚ)) ∧
    (get_overview d).home_win_rate
      = some ((d.countP (fun r => r.pointsAway < r.pointsHome) : ℚ) / (d.length : ℚ) * 100) ∧
    (0 : ℚ) ≤ (d.countP (fun r => r.pointsAway < r.pointsHome) : ℚ) / (d.length : ℚ) * 100 ∧
    (d.countP (fun r => r.pointsAway < r.pointsHome) : ℚ) / (d.length : ℚ) * 100 ≤ 100 := by
  have hl : d.length ≠ 0 := by simpa using h
  have hl2 : (0 : ℚ) < (d.length : ℚ) := by
    exact_mod_cast Nat.pos_of_ne_zero hl
  have hc : (d.countP (fun r => r.pointsAway < r.pointsHome) : ℚ) ≤ (d.length : ℚ) := by
    exact_mod_cast List.countP_le_length _
  refine ⟨rfl, ?_, ?_, ?_, ?_, ?_⟩
  · simp [get_overview, meanOpt, hl]
  · simp [get_overview, meanOpt, hl]
  · simp [get_overview, hl]
  · positivity
  · have h1 : (d.countP (fun r => r.pointsAway < r.pointsHome) : ℚ) / (d.length : ℚ) ≤ 1 := by
      rw [div_le_one hl2]; exact hc
    calc (d.countP (fun r => r.pointsAway < r.pointsHome) : ℚ) / (d.length : ℚ) * 100
        ≤ 1 * 100 := by
          exact mul_le_mul_of_nonneg_right h1 (by norm_num)
      _ = 100 := one_mul 100

/-- Witness for the C1 theorem at the three-game sample dataset. -/
theorem overview_correct_w :
    (get_overview sampleD).total_games = sampleD.length ∧
    (get_overview sampleD).home_win_rate
      = some ((sampleD.countP (fun r => r.pointsAway < r.pointsHome) : ℚ)
          / (sampleD.length : ℚ) * 100) :=
  ⟨(overview_correct sampleD (by decide)).1,
   (overview_correct sampleD (by decide)).2.2.2.1⟩

/-- Claim C5: `get_season_trend` returns one row per distinct season present
in the Dataset and no others (its season column is duplicate-free and has
exactly the seasons occurring in the data), rows are sorted by season
ascending, and each row carries its season's positive record count and the
per-season arithmetic means of `pointsHome`, `pointsAway` and `totalPoints`. -/
theorem season_trend_spec (d : List GameRecord) :
    ((get_season_trend d).map (·.season)).Nodup ∧
    List.Sorted (· ≤ ·) ((get_season_trend d).map (·.season)) ∧
    (∀ s : Int, s ∈ (get_season_trend d).map (·.season) ↔ s ∈ d.map (·.season)) ∧
    ∀ row ∈ get_season_trend d,
      0 < row.games ∧
      row.games = (d.filter (fun r => r.season == row.season)).length ∧
      row.avg_home = ((d.filter (fun r => r.season == row.season)).map
        (fun r => (r.pointsHome : ℚ))).sum / (row.games : ℚ) ∧
      row.avg_away = ((d.filter (fun r => r.season == row.season)).map
        (fun r => (r.pointsAway : ℚ))).sum / (row.games : ℚ) ∧
      row.avg_total = ((d.filter (fun r => r.season == row.season)).map
        (fun r => (totalPoints r : ℚ))).sum / (row.games : ℚ) := by
  rw [season_trend_map_season]
  refine ⟨?_, ?_, ?_, ?_⟩
  · exact ((List.perm_insertionSort _ _).symm).nodup (List.nodup_dedup _)
  · exact List.sorted_insertionSort _ _
  · intro s
    rw [seasonsSorted, List.mem_insertionSort, List.mem_dedup]
  · intro row hrow
    unfold get_season_trend at hrow
    rcases List.mem_map.mp hrow with ⟨s, hs, rfl⟩
    have hmem : s ∈ d.map (·.season) := by
      rw [seasonsSorted, List.mem_insertionSort, List.mem_dedup] at hs
      exact hs
    rcases List.mem_map.mp hmem with ⟨r, hr, hrs⟩
    have hrf : r ∈ d.filter (fun r => r.season == s) :=
      List.mem_filter.mpr ⟨hr, by simp [hrs]⟩
    exact ⟨List.length_pos_of_mem hrf, rfl, rfl, rfl, rfl⟩

/-- Witness for the C5 theorem at the three-game sample dataset. -/
theorem season_trend_spec_w :
    ((get_season_trend sampleD).map (·.season)).Nodup ∧
    List.Sorted (· ≤ ·) ((get_season_trend sampleD).map (·.season)) :=
  ⟨(season_trend_spec sampleD).1, (season_trend_spec sampleD).2.1⟩


lemma mem_win_counts {d : List GameRecord} {p : String × Nat} (hp : p ∈ win_counts d) :
    p.2 = (winners d).count p.1 ∧ p.1 ∈ winners d := by
  rw [win_counts, List.mem_insertionSort] at hp
  rcases List.mem_map.mp hp with ⟨t, ht, rfl⟩
  exact ⟨rfl, List.mem_dedup.mp ht⟩

lemma mem_win_counts_of_winner {d : List GameRecord} {t : String} (ht : t ∈ winners d) :
    (t, (winners d).count t) ∈ win_counts d := by
  rw [win_counts, List.mem_insertionSort]
  exact List.mem_map.mpr ⟨t, List.mem_dedup.mpr ht, rfl⟩

/-- Claim C3: `get_team_rankings` (with or without a season filter) returns at
most 15 rows, ordered by `wins` descending (the model fixes a deterministic
tie-break for `value_counts`); each row's `wins` is the team's win tally over
the restricted record set and its `games` counts the team's appearances there,
with `wins ≤ games`; and the selected teams have the highest win counts: any
team left out of the output has a tally no larger than every output row's. -/
theorem team_rankings_spec (d : List GameRecord) (season : Option Int) :
    (get_team_rankings d season).length ≤ 15 ∧
    List.Sorted (fun a b => b.wins ≤ a.wins) (get_team_rankings d season) ∧
    (∀ row ∈ get_team_rankings d season,
      row.wins = (winners (restrict d season)).count row.team ∧
      row.games = (restrict d season).countP (fun r => r.homeTeam == row.team)
        + (restrict d season).countP (fun r => r.awayTeam == row.team) ∧
      row.wins ≤ row.games) ∧
    ∀ t : String, t ∉ (get_team_rankings d season).map (·.team) →
      ∀ row ∈ get_team_rankings d season,
        (winners (restrict d season)).count t ≤ row.wins := by
  have hsort : List.Sorted rankLE (win_counts (restrict d season)) :=
    List.sorted_insertionSort _ _
  have e : get_team_rankings d season
      = ((win_counts (restrict d season)).take 15).map (fun p =>
        let total := (restrict d season).countP (fun r => r.homeTeam == p.1)
          + (restrict d season).countP (fun r => r.awayTeam == p.1)
        { team := p.1
          wins := p.2
          games := total
          win_rate := if 0 < total then (p.2 : ℚ) / (total : ℚ) * 100 else 0 }) := rfl
  refine ⟨?_, ?_, ?_, ?_⟩
  · rw [e, List.length_map, List.length_take]
    exact min_le_left _ _
  · rw [e]
    exact List.pairwise_map.mpr (List.Pairwise.sublist (List.take_sublist _ _) hsort)
  · intro row hrow
    rw [e] at hrow
    rcases List.mem_map.mp hrow with ⟨p, hp, rfl⟩
    obtain ⟨hcount, hmemw⟩ := mem_win_counts (List.mem_of_mem_take hp)
    refine ⟨hcount, rfl, ?_⟩
    have hle := count_winners_le (restrict d season) p.1
    rw [← hcount] at hle
    exact hle
  · intro t ht row hrow
    rw [e] at hrow ht
    rcases List.mem_map.mp hrow with ⟨p, hp, rfl⟩
    by_cases hmem : t ∈ winners (restrict d season)
    · have hwc := mem_win_counts_of_winner hmem
      rw [← List.take_append_drop 15 (win_counts (restrict d season))] at hwc
      rcases List.mem_append.mp hwc with h1 | h1
      · exfalso
        apply ht
        exact List.mem_map.mpr
          ⟨_, List.mem_map.mpr ⟨(t, (winners (restrict d season)).count t), h1, rfl⟩, rfl⟩
      · exact sorted_take_drop hsort 15 p hp _ h1
    · rw [List.count_eq_zero.mpr hmem]
      exact Nat.zero_le _

/-- Witness for the C3 theorem at the three-game sample dataset. -/
theorem team_rankings_spec_w :
    (get_team_rankings sampleD none).length ≤ 15 ∧
    List.Sorted (fun a b => b.wins ≤ a.wins) (get_team_rankings sampleD none) :=
  ⟨(team_rankings_spec sampleD none).1, (team_rankings_spec sampleD none).2.1⟩


lemma map_season_teamSeasonsAll (d : List GameRecord) (team : String) :
    (teamSeasonsAll d team).map (·.season)
      = (seasonsSorted d).filter (fun s => decide (0 < teamSeasonGames d team s)) := by
  unfold teamSeasonsAll
  generalize seasonsSorted d = l
  induction l with
  | nil => rfl
  | cons a t ih =>
    by_cases h : 0 < teamSeasonGames d team a <;>
      simp [List.filterMap_cons, List.filter_cons, h, ih]

/-- Claim C7: the per-season breakdown of `get_team_detail` is the last 10
rows of the season-ascending list of qualifying seasons; it only contains
seasons where the team played (`games > 0`), it is a suffix of the full
ascending qualifying list (so the at most 10 rows kept are the most recent
qualifying seasons), the full list has exactly the seasons present in the
Dataset in which the team appeared, and each row's `wins` and `games` are the
team's wins and appearances in that season. -/
theorem team_detail_seasons_spec (d : List GameRecord) (team : String) :
    (get_team_detail d team).seasons
      = (teamSeasonsAll d team).drop ((teamSeasonsAll d team).length - 10) ∧
    (get_team_detail d team).seasons.length = min 10 (teamSeasonsAll d team).length ∧
    (get_team_detail d team).seasons.IsSuffix (teamSeasonsAll d team) ∧
    List.Sorted (· ≤ ·) ((teamSeasonsAll d team).map (·.season)) ∧
    (∀ s : Int, s ∈ (teamSeasonsAll d team).map (·.season)
      ↔ s ∈ d.map (·.season) ∧ 0 < teamSeasonGames d team s) ∧
    ∀ row ∈ teamSeasonsAll d team,
      0 < row.games ∧
      row.games = teamSeasonGames d team row.season ∧
      row.wins = teamSeasonWins d team row.season := by
  have e : (get_team_detail d team).seasons = lastN 10 (teamSeasonsAll d team) := rfl
  refine ⟨e, ?_, ?_, ?_, ?_, ?_⟩
  · rw [e, lastN, List.length_drop]
    omega
  · rw [e, lastN]
    exact List.drop_suffix _ _
  · rw [map_season_teamSeasonsAll]
    exact List.Pairwise.sublist (List.filter_sublist _) (List.sorted_insertionSort _ _)
  · intro s
    rw [map_season_teamSeasonsAll, List.mem_filter]
    rw [seasonsSorted, List.mem_insertionSort, List.mem_dedup]
    simp
  · intro row hrow
    unfold teamSeasonsAll at hrow
    rcases List.mem_filterMap.mp hrow with ⟨s, hs, hfs⟩
    dsimp only at hfs
    split at hfs
    case isTrue h =>
      injection hfs with h2
      subst h2
      exact ⟨h, rfl, rfl⟩
    case isFalse h =>
      exact Option.noConfusion hfs

/-- Witness for the C7 theorem at the three-game sample dataset. -/
theorem team_detail_seasons_spec_w :
    (get_team_detail sampleD "A").seasons.length
      = min 10 (teamSeasonsAll sampleD "A").length :=
  (team_detail_seasons_spec sampleD "A").2.1

/-- Claim C8 (amended): for a team identifier appearing in no record,
`get_team_detail` returns without failing: zero wins, zero games, an empty
season list, win rate 0 through the `max(total_games, 1)` denominator — but
its average points is NaN (`none`), the undefined mean of zero games
propagated through the float arithmetic, not a defined zero value. -/
theorem team_detail_unknown (d : List GameRecord) (team : String)
    (h : ∀ r ∈ d, r.homeTeam ≠ team ∧ r.awayTeam ≠ team) :
    get_team_detail d team
      = { total_wins := 0, total_games := 0, win_rate := 0, avg_points := none,
          seasons := [] } := by
  have hh : d.filter (fun r => r.homeTeam == team) = [] := by
    rw [List.filter_eq_nil_iff]
    intro r hr
    simp [(h r hr).1]
  have ha : d.filter (fun r => r.awayTeam == team) = [] := by
    rw [List.filter_eq_nil_iff]
    intro r hr
    simp [(h r hr).2]
  have hz : ∀ s : Int, teamSeasonGames d team s = 0 := by
    intro s
    rw [teamSeasonGames, hh, ha]
    rfl
  have hseasons : teamSeasonsAll d team = [] := by
    rw [teamSeasonsAll, List.filterMap_eq_nil_iff]
    intro s hs
    simp [hz s]
  unfold get_team_detail
  rw [hh, ha, hseasons]
  simp [lastN, meanOpt, nanMulNat, nanAdd, nanDivNat]

/-- Witness for the C8 theorem: team `C` appears in no sample record. -/
theorem team_detail_unknown_w :
    get_team_detail sampleD "C"
      = { total_wins := 0, total_games := 0, win_rate := 0, avg_points := none,
          seasons := [] } :=
  team_detail_unknown sampleD "C" (by decide)

/-- Claim C8 (counterexample to the claim as stated): team `C` appears in no
record of the sample dataset, and `get_team_detail` then reports `avg_points`
as NaN (`none`), not as the defined zero value the claim asserts. -/
theorem team_detail_unknown_avg_cex :
    ((sampleD.map (·.homeTeam)).contains "C"
      || (sampleD.map (·.awayTeam)).contains "C") = false ∧
    (get_team_detail sampleD "C").avg_points = none :=
  ⟨rfl, rfl⟩

end NBAStats
